import Mathlib

/-!
Verification of `check_prices.py` (DropNotifier).

The development shallowly embeds the price-tracking script: the pure string
processing (`normalize_price_string`, `sanitize_filename`, the per-site token
construction of `extract_price`) is translated directly; the effectful parts
(Playwright navigation, BeautifulSoup selector queries, `page.evaluate`,
Supabase writes, Slack posts) are modelled by explicit environments describing
what each external call returns and by event/effect traces recording what the
code does with the results.
-/

namespace DropNotifier

/-! ## Python string primitives used by the script -/

/-- `listStartsWith pat l` : does `l` begin with `pat`?  (Char lists.) -/
def listStartsWith : List Char → List Char → Bool
  | [], _ => true
  | _ :: _, [] => false
  | p :: ps, c :: cs => p == c && listStartsWith ps cs

/-- Auxiliary recursion for `pyReplace`, fuelled by the input length: at each
step one input char is consumed (plus the rest of a matched pattern). -/
def pyReplaceAux (pat rep : List Char) : Nat → List Char → List Char
  | 0, l => l
  | _ + 1, [] => []
  | f + 1, c :: cs =>
    if pat ≠ [] ∧ listStartsWith pat (c :: cs) then
      rep ++ pyReplaceAux pat rep f (List.drop (pat.length - 1) cs)
    else
      c :: pyReplaceAux pat rep f cs

/-- Python `s.replace(pat, rep)`: replace every (left-to-right,
non-overlapping) occurrence of `pat` in `s` by `rep`. -/
def pyReplace (s pat rep : String) : String :=
  String.mk (pyReplaceAux pat.toList rep.toList s.toList.length s.toList)

/-- Python `s.lower()`, character by character. -/
def pyLower (s : String) : String :=
  String.mk (s.toList.map Char.toLower)

/-- Python truthiness of an optional string: `None` and `""` are falsy. -/
def pyTruthy : Option String → Bool
  | none => false
  | some s => s ≠ ""

/-- `containsSubL pat l` : does `pat` occur as a contiguous sublist of `l`? -/
def containsSubL (pat : List Char) : List Char → Bool
  | [] => pat.isEmpty
  | c :: cs => listStartsWith pat (c :: cs) || containsSubL pat cs

/-- Python `pat in s` substring test. -/
def strContains (s pat : String) : Bool :=
  containsSubL pat.toList s.toList

/-! ## `normalize_price_string` (src/check_prices.py lines 145-154) -/

/-- The character class kept by `re.sub(r"[^\d.,]", "", s)`: digits, the
period and the comma.  (`\d` is modelled as decimal digits.) -/
def isNumTokenChar (c : Char) : Bool :=
  c.isDigit || c == '.' || c == ','

/-- `normalize_price_string` from the source, with `None`/`""` input handled
by the leading `if not price_raw` test.  `s.replace(",", "")` removes each
comma character, modelled by a filter; the final `s.strip()` is the identity
here because only digits, periods and commas survive the character filter,
and none of those is whitespace. -/
def normalize_price_string (price_raw : Option String) : Option String :=
  match price_raw with
  | none => none
  | some raw =>
    if raw = "" then none
    else
      let s₁ := pyReplace (pyReplace (pyReplace raw "₹" "") "INR" "") "MRP" ""
      let s₂ := String.mk (s₁.toList.filter isNumTokenChar)
      let s₃ :=
        if s₂.toList.count ',' != 0 && s₂.toList.count '.' == 0 then
          String.mk (s₂.toList.filter (· ≠ ','))
        else s₂
      let s₄ := String.mk (s₃.toList.filter (· ≠ ','))
      if s₄ = "" then none else some s₄

/-- Restatement of the normalizer following the spec's words (§4.1): strip
currency markers and the literal "MRP"; remove all characters except digits,
comma and period; if a comma is present but no period, drop commas as
thousands separators; drop any remaining commas; empty result means `null`. -/
def normalizeSpecModel (price_raw : Option String) : Option String :=
  match price_raw with
  | none => none
  | some raw =>
    if raw = "" then none
    else
      let stripped := pyReplace (pyReplace (pyReplace raw "₹" "") "INR" "") "MRP" ""
      let kept := String.mk (stripped.toList.filter isNumTokenChar)
      let thinned :=
        if kept.toList.contains ',' && !(kept.toList.contains '.') then
          String.mk (kept.toList.filter (· ≠ ','))
        else kept
      let final := String.mk (thinned.toList.filter (· ≠ ','))
      if final = "" then none else some final

/-! ## `sanitize_filename` and the debug-artifact name
(src/check_prices.py lines 75-76 and 316-317) -/

/-- The character class `[0-9A-Za-z-_.]` of `sanitize_filename`. -/
def isFnameChar (c : Char) : Bool :=
  c.isDigit || c.isAlpha || c == '-' || c == '_' || c == '.'

/-- `sanitize_filename`: every character outside `[0-9A-Za-z-_.]` becomes
`'_'` (`re.sub`), then the result is truncated to 240 characters (`[:240]`). -/
def sanitize_filename (s : String) : String :=
  String.mk ((s.toList.map fun c => if isFnameChar c then c else '_').take 240)

/-- The debug-artifact filename of a failing attempt:
`parsed = url.replace("://", "_").replace("/", "_")` and then
`sanitize_filename(f"{site}_{parsed}") + ".html"`. -/
def debugFilename (site url : String) : String :=
  sanitize_filename (site ++ "_" ++ pyReplace (pyReplace url "://" "_") "/" "_") ++ ".html"

/-! ## `extract_price` (src/check_prices.py lines 157-270)

The function reads the page through BeautifulSoup selector queries, a
`page.evaluate` call and `re.search` over the markup.  Those library calls
are modelled as a `PageView`: the observations the site-specific code makes
of one rendered page.  Everything the script itself computes from the
observations (digit filtering, token assembly, truthiness chaining between
the croma tiers) is translated directly. -/

/-- Observations of one rendered page, as `extract_price` queries it. -/
structure PageView where
  /-- `soup.select_one(".Nx9bqj.CxhGGd").text` — `none` when no element. -/
  flipkartText : Option String
  /-- `soup.select_one("span.a-price-whole").text` — `none` when no element. -/
  amazonWhole : Option String
  /-- `soup.select_one("span.a-price-fraction").text` — `none` when absent. -/
  amazonFrac : Option String
  /-- `soup.select_one("div.product-price").get_text(strip=True)`. -/
  relianceText : Option String
  /-- Result of the croma `page.evaluate` JS-state walk: `none` when no page
  handle is available, the walk returns `null`, or the call raises (the
  `except` clause leaves `price_raw` unchanged). -/
  cromaJs : Option String
  /-- First `(?P<v>...)` capture of the fixed regex list over the full
  markup, `none` when no regex matches. -/
  cromaRegexHtml : Option String
  /-- First capture of the same regex list over the inline script blocks. -/
  cromaRegexScript : Option String
  /-- The first element matched by the croma candidate CSS selectors:
  `(value-attribute, stripped text)`; `none` when no selector matches. -/
  cromaEl : Option (Option String × String)
deriving DecidableEq

/-- A `PageView` in which nothing matches. -/
def blankPage : PageView :=
  ⟨none, none, none, none, none, none, none, none⟩

/-- `extract_price` from the source.  Per-site dispatch is on the exact
(lowercased by the caller) site string; any other site leaves `price_raw`
as `None`.  The croma tiers chain on Python truthiness: a tier runs only
`if not price_raw`. -/
def extract_price (site : String) (pv : PageView) : Option String :=
  if site = "flipkart" then
    pv.flipkartText
  else if site = "amazon" then
    match pv.amazonWhole with
    | none => none
    | some w =>
      let wholeDigits := String.mk (w.toList.filter Char.isDigit)
      let fracDigits :=
        match pv.amazonFrac with
        | some f => String.mk (f.toList.filter Char.isDigit)
        | none => "00"
      some (wholeDigits ++ "." ++ fracDigits)
  else if site = "reliance" then
    match pv.relianceText with
    | some t => some (pyReplace t "MRP" "")
    | none => none
  else if site = "croma" then
    -- tier (a): JS state; `if found:` assigns only a truthy value
    let afterJs : Option String :=
      match pv.cromaJs with
      | some v => if v ≠ "" then some v else none
      | none => none
    -- tier (b): regexes over the markup, then over the inline scripts
    let afterRxHtml := if pyTruthy afterJs then afterJs else pv.cromaRegexHtml
    let afterRx := if pyTruthy afterRxHtml then afterRxHtml else pv.cromaRegexScript
    -- tier (c): candidate selectors, `el.get("value") or el.get_text(strip=True)`
    if pyTruthy afterRx then afterRx
    else
      match pv.cromaEl with
      | some (vAttr, text) =>
        some (match vAttr with
              | some va => if va ≠ "" then va else text
              | none => text)
      | none => afterRx
  else
    none

/-! ## `get_price_with_context` (src/check_prices.py lines 276-377)

One call runs up to two attempts.  Each attempt creates a context and a
page, navigates, reads the content twice if needed, extracts and
normalizes.  The outside world (whether page creation raises, whether
navigation raises and with what message, what the two content reads show)
is an `AttemptEnv`; the model emits the session/backoff/diagnostic events
the code performs and either a result or a retry. -/

/-- What the environment does to one attempt. -/
inductive NavResult where
  /-- Navigation and both content reads succeed, showing `pv1` then (after
  the 1s wait) `pv2`. -/
  | ok (pv1 pv2 : PageView)
  /-- A `PlaywrightError` with message `msg` is raised. -/
  | pwRaise (msg : String)
  /-- Some other exception is raised inside the `try` body. -/
  | otherRaise
deriving DecidableEq

/-- Environment of one attempt: `pageCreateErr = some m` means
`context.new_page()` raises a `PlaywrightError` with message `m` (this
happens before the `try` block); otherwise `nav` describes the body. -/
structure AttemptEnv where
  pageCreateErr : Option String
  nav : NavResult
deriving DecidableEq

/-- Events an attempt performs, in order. -/
inductive Ev where
  | openCtx
  | openPage
  | closePage
  | closeCtx
  /-- `asyncio.sleep(0.7 * attempt)` backoff before the next attempt. -/
  | sleepBackoff (seconds : ℚ)
  /-- `file_path.write_text(html)` of the failure artifact. -/
  | writeDebug (fname : String)
deriving DecidableEq

/-- Known network-error substrings recognized in a `PlaywrightError`
message (src/check_prices.py line 339). -/
def isNetErr (msg : String) : Bool :=
  strContains msg "ERR_PROXY_CONNECTION_FAILED" ||
  strContains msg "ERR_NETWORK_CHANGED" ||
  strContains msg "ERR_TUNNEL_CONNECTION_FAILED"

/-- Result of a whole `get_price_with_context` call. -/
inductive FetchResult where
  /-- `return float(price_str)` — the successfully parsed price. -/
  | price (q : ℚ)
  /-- `return None` after the attempt cap. -/
  | noPrice
  /-- A network-flagged `PlaywrightError` was re-raised (`raise e`). -/
  | raisedNet (msg : String)
  /-- The `PlaywrightError` from `context.new_page()` escaped the loop. -/
  | raisedPageCreate (msg : String)
deriving DecidableEq

/-- Whether the attempt loop continues (`continue`) or returns/raises. -/
inductive StepRes where
  | ret (r : FetchResult)
  | retry
deriving DecidableEq

/-- Split a character list on `'.'` (Python `s.split(".")` for the
single-character separator). -/
def splitOnDot : List Char → List (List Char)
  | [] => [[]]
  | c :: cs =>
    match splitOnDot cs with
    | [] => [[c]]
    | h :: t => if c = '.' then [] :: h :: t else (c :: h) :: t

/-- Numeric value of a digit list. -/
def digitsVal (l : List Char) : ℕ :=
  l.foldl (fun a c => 10 * a + (c.toNat - 48)) 0

/-- Python `float(s)` on the digits-and-periods strings produced by the
normalizer: at most one period and at least one digit; value as a rational. -/
def pyFloat (s : String) : Option ℚ :=
  match splitOnDot s.toList with
  | [a] =>
    if a.length ≠ 0 ∧ a.all Char.isDigit then some (mkRat (digitsVal a) 1)
    else none
  | [a, b] =>
    if a.length + b.length ≠ 0 ∧ a.all Char.isDigit ∧ b.all Char.isDigit then
      some (mkRat (digitsVal a * 10 ^ b.length + digitsVal b) (10 ^ b.length))
    else none
  | _ => none

/-- One iteration of the `while attempt < 2` loop, for attempt number `n`
(1-based, as in the source after `attempt += 1`). -/
def oneAttempt (site url : String) (n : ℕ) (e : AttemptEnv) : List Ev × StepRes :=
  match e.pageCreateErr with
  | some m =>
    -- `context` was created but `new_page` raised before the `try` block:
    -- the exception escapes the loop and the context is never closed.
    ([.openCtx], .ret (.raisedPageCreate m))
  | none =>
    match e.nav with
    | .pwRaise msg =>
      if isNetErr msg then
        -- `except PlaywrightError` with a recognized network message:
        -- close page and context, then `raise e`.
        ([.openCtx, .openPage, .closePage, .closeCtx], .ret (.raisedNet msg))
      else
        -- any other `PlaywrightError`: close, back off, continue.
        ([.openCtx, .openPage, .closePage, .closeCtx, .sleepBackoff (mkRat (7 * n) 10)], .retry)
    | .otherRaise =>
      ([.openCtx, .openPage, .closePage, .closeCtx, .sleepBackoff (mkRat (7 * n) 10)], .retry)
    | .ok pv1 pv2 =>
      let r1 := extract_price site pv1
      let raw := if pyTruthy r1 then r1 else extract_price site pv2
      if ¬ pyTruthy raw then
        -- save the failing HTML, then `raise Exception("Price not found...")`,
        -- handled by the generic except: close, back off, continue.
        ([.openCtx, .openPage, .writeDebug (debugFilename site url),
          .closePage, .closeCtx, .sleepBackoff (mkRat (7 * n) 10)], .retry)
      else
        match normalize_price_string raw with
        | none =>
          -- `raise Exception("Price normalization failed.")`
          ([.openCtx, .openPage, .closePage, .closeCtx, .sleepBackoff (mkRat (7 * n) 10)], .retry)
        | some priceStr =>
          match pyFloat priceStr with
          | some q => ([.openCtx, .openPage, .closePage, .closeCtx], .ret (.price q))
          | none =>
            -- `float` raises after the closes; the except re-runs the
            -- (now no-op) close calls, backs off and continues.
            ([.openCtx, .openPage, .closePage, .closeCtx, .closePage, .closeCtx,
              .sleepBackoff (mkRat (7 * n) 10)], .retry)

/-- `get_price_with_context`: two attempts, then `return None`. -/
def get_price_with_context (site url : String) (e1 e2 : AttemptEnv) :
    List Ev × FetchResult :=
  match oneAttempt site url 1 e1 with
  | (evs, .ret r) => (evs, r)
  | (evs, .retry) =>
    match oneAttempt site url 2 e2 with
    | (evs2, .ret r) => (evs ++ evs2, r)
    | (evs2, .retry) => (evs ++ evs2, .noPrice)

/-! ## `run_price_check` per-item logic (src/check_prices.py lines 431-493)

The Supabase queries and Slack posts become an `Effect` trace; one tracked
item is an `ItemState` mirroring the row the controller reads and writes. -/

/-- A `tracked_items` row as the controller uses it. -/
structure ItemState where
  id : String
  /-- `item.get("site")` — may be missing. -/
  site : Option String
  /-- `item.get("product_url")`. -/
  product_url : String
  /-- `item.get("target_price")` — may be missing (`or 0` applies). -/
  target_price : Option ℚ
  last_price : Option ℚ
  /-- `last_checked_at`, as an abstract timestamp. -/
  last_checked : Option ℕ
  /-- `item.get("notified")` — a missing value reads as falsy. -/
  notified : Bool
  active : Bool
deriving DecidableEq

/-- External side effects of the controller, in program order. -/
inductive Effect where
  /-- `send_slack(message)`. -/
  | slack (msg : String)
  /-- `supabase.table("price_history").insert({tracked_item_id, price})`. -/
  | insertHistory (itemId : String) (price : Option ℚ)
  /-- `supabase.table("tracked_items").update({last_price, last_checked_at})`. -/
  | updatePriceTs (itemId : String) (price : ℚ) (ts : ℕ)
  /-- `supabase.table("tracked_items").update({notified: True})`. -/
  | updateNotified (itemId : String)
deriving DecidableEq

/-- Minimal `k` with `den ∣ 10 ^ k` (the decimal scale of a terminating
rational; 40 is an unreachable fallback for the values handled here). -/
def minPow10Exp (den : ℕ) : ℕ :=
  ((List.range 40).find? fun k => decide (den ∣ 10 ^ k)).getD 40

/-- Decimal digits of `n`, fuelled recursion. -/
def natDigitsAux : ℕ → ℕ → List Char
  | 0, _ => []
  | f + 1, n =>
    if n < 10 then [Char.ofNat (48 + n)]
    else natDigitsAux f (n / 10) ++ [Char.ofNat (48 + n % 10)]

/-- Decimal rendering of a natural number. -/
def natRepr (n : ℕ) : String :=
  String.mk (natDigitsAux (n + 1) n)

/-- Python `str` of a float holding an exact short decimal: the shortest
round-tripping repr, i.e. the minimal decimal form, with a trailing `.0`
on integral values (`str(44999.0) == "44999.0"`, `str(44.999) == "44.999"`). -/
def floatRepr (q : ℚ) : String :=
  let sign := if q.num < 0 then "-" else ""
  let k := minPow10Exp q.den
  let m := q.num.natAbs * (10 ^ k / q.den)
  if k = 0 then sign ++ natRepr m ++ ".0"
  else
    let frac := natDigitsAux (m % 10 ^ k + 1) (m % 10 ^ k)
    sign ++ natRepr (m / 10 ^ k) ++ "." ++
      String.mk (List.replicate (k - frac.length) '0' ++ frac)

/-- Python `str` of the JSON-decoded `target_price` value (an `int` renders
without a decimal point, a decimal as a float), with a missing value
replaced by `0` (`item.get("target_price") or 0`). -/
def targetRepr : Option ℚ → String
  | none => "0"
  | some t =>
    if t.den = 1 then (if t.num < 0 then "-" ++ natRepr t.num.natAbs else natRepr t.num.natAbs)
    else floatRepr t

/-- The failure alert of the null-price branch. -/
def noPriceMsg (site url : String) : String :=
  "❗ ERROR: Could not extract price.\nSite: " ++ site ++ "\nURL: " ++ url

/-- The price-drop alert. -/
def dropMsg (site url : String) (price : ℚ) (target : Option ℚ) : String :=
  "💰 PRICE DROP ALERT!\nSite: *" ++ site ++ "*\nURL: " ++ url ++
  "\nCurrent Price: ₹" ++ floatRepr price ++ "\nTarget Price: ₹" ++ targetRepr target

/-- The per-item `except Exception` alert. -/
def critMsg (url errText : String) : String :=
  "❗ CRITICAL ERROR scraping URL:\n" ++ url ++ "\nError: " ++ errText

/-- Fetch environments for one item: the two attempts of one
`get_price_with_context` call. -/
structure FetchEnv where
  a1 : AttemptEnv
  a2 : AttemptEnv
deriving DecidableEq

/-- The controller's fetch for one item: for croma with a proxy browser
available, try the proxied call first and, on a `PlaywrightError`
(`except PlaywrightError`), re-attempt once with the direct browser —
a fresh `get_price_with_context` call with its own two-attempt budget.
All other items go straight to the direct browser. -/
def itemFetch (proxyAvail : Bool) (feP feD : FetchEnv) (item : ItemState) :
    List Ev × FetchResult :=
  let site := pyLower (item.site.getD "")
  let url := item.product_url
  if site = "croma" ∧ proxyAvail then
    match get_price_with_context site url feP.a1 feP.a2 with
    | (evs, .raisedNet _) =>
      let d := get_price_with_context site url feD.a1 feD.a2
      (evs ++ d.1, d.2)
    | (evs, .raisedPageCreate _) =>
      let d := get_price_with_context site url feD.a1 feD.a2
      (evs ++ d.1, d.2)
    | r => r
  else
    get_price_with_context site url feD.a1 feD.a2

/-- The per-item body of `run_price_check`: interpret the fetch result,
record history, update the item and alert.  Returns the event trace, the
effect trace and the item row as left in the store. -/
def checkItem (proxyAvail : Bool) (feP feD : FetchEnv) (now : ℕ) (item : ItemState) :
    List Ev × List Effect × ItemState :=
  let site := pyLower (item.site.getD "")
  let url := item.product_url
  let target := item.target_price.getD 0
  let f := itemFetch proxyAvail feP feD item
  match f.2 with
  | .raisedNet m =>
    -- the exception reaches the per-item `except Exception` handler
    (f.1, [.slack (critMsg url m)], item)
  | .raisedPageCreate m =>
    (f.1, [.slack (critMsg url m)], item)
  | .noPrice =>
    (f.1, [.slack (noPriceMsg site url), .insertHistory item.id none], item)
  | .price p =>
    let updated := { item with last_price := some p, last_checked := some now }
    let base : List Effect := [.updatePriceTs item.id p now, .insertHistory item.id (some p)]
    if p ≥ target then
      (f.1, base, updated)
    else if item.notified then
      (f.1, base, updated)
    else
      (f.1, base ++ [.slack (dropMsg site url p item.target_price), .updateNotified item.id],
       { updated with notified := true })

/-- Sequential loop over the items of a run. -/
def runItemsFrom (proxyAvail : Bool) (envs : ℕ → FetchEnv × FetchEnv) (now : ℕ) :
    List ItemState → ℕ → List Effect
  | [], _ => []
  | it :: rest, i =>
    (checkItem proxyAvail (envs i).1 (envs i).2 now it).2.1 ++
      runItemsFrom proxyAvail envs now rest (i + 1)

/-- The whole run: each active item is checked in sequence (the Supabase
query filters `active = True`); `envs i` supplies the environments of the
`i`-th item. -/
def run_price_check (proxyAvail : Bool) (envs : ℕ → FetchEnv × FetchEnv) (now : ℕ)
    (items : List ItemState) : List Effect :=
  runItemsFrom proxyAvail envs now (items.filter (·.active)) 0

/-! ## Helper observers used by the theorems -/

/-- Is an effect a `price_history` insert? -/
def isHistory : Effect → Bool
  | .insertHistory _ _ => true
  | _ => false

/-- Is an effect a `tracked_items` mutation? -/
def isItemMutation : Effect → Bool
  | .updatePriceTs _ _ _ => true
  | .updateNotified _ => true
  | _ => false

/-- The Slack messages of an effect trace. -/
def alerts (effs : List Effect) : List String :=
  effs.filterMap fun e =>
    match e with
    | .slack m => some m
    | _ => none

/-- Is an event a diagnostic-artifact write? -/
def isWriteDebug : Ev → Bool
  | .writeDebug _ => true
  | _ => false

/-! ## Concrete instances used by the theorems -/

/-- The C1 page: an amazon whole-part element whose digit-filtered text is
`"44"` and a fraction-part element whose digit-filtered text is `"999"`. -/
def pvC1 : PageView :=
  { blankPage with amazonWhole := some "44", amazonFrac := some "999" }

/-- Fetch environment for the C1 scenario: clean navigation showing `pvC1`. -/
def feC1 : FetchEnv :=
  ⟨⟨none, .ok pvC1 pvC1⟩, ⟨none, .ok pvC1 pvC1⟩⟩

/-- The C1 tracked item: amazon, target price 50000, not yet notified. -/
def itemC1 : ItemState :=
  ⟨"i1", some "amazon", "https://www.amazon.in/dp/X", some 50000, none, none, false, true⟩

/-- The alert the C1 scenario actually produces. -/
def msgC1 : String :=
  "💰 PRICE DROP ALERT!\nSite: *amazon*\nURL: https://www.amazon.in/dp/X" ++
  "\nCurrent Price: ₹44.999\nTarget Price: ₹50000"

/-- A croma page on which every tier would yield a different value: the
JS state says `"111"`, the markup regexes `"222"` and `"333"`, and the
candidate selector element `"444"`/`"555"`. -/
def pvC8 : PageView :=
  { blankPage with cromaJs := some "111", cromaRegexHtml := some "222",
                   cromaRegexScript := some "333", cromaEl := some (some "444", "555") }

/-- A tracked item whose site string is not one of the four supported
identifiers. -/
def itemC10 : ItemState :=
  ⟨"i2", some "BOGUS", "http://x/y", none, none, none, false, true⟩

/-- Clean navigation showing pages on which nothing matches. -/
def blankFetch : FetchEnv :=
  ⟨⟨none, .ok blankPage blankPage⟩, ⟨none, .ok blankPage blankPage⟩⟩

/-- A tracked croma item, used with the proxy-fallback theorems. -/
def itemC5 : ItemState :=
  ⟨"i3", some "croma", "https://www.croma.com/p/1", some 1000, none, none, false, true⟩

/-- The history records one check attempt should append, per fetch result:
exactly one, with a null price exactly on the failed attempt, and none when
an exception escaped to the per-item handler. -/
def historyOf (itemId : String) : FetchResult → List Effect
  | .noPrice => [.insertHistory itemId none]
  | .price p => [.insertHistory itemId (some p)]
  | .raisedNet _ => []
  | .raisedPageCreate _ => []

/-- The `tracked_items` mutations one check attempt should perform, per
fetch result: none on failure; the price+timestamp update on success, plus
the notified-flag update exactly when the price is strictly below target
and the item was not already notified. -/
def mutationsOf (itemId : String) (now : ℕ) (target : ℚ) (notified : Bool) :
    FetchResult → List Effect
  | .price p =>
    if p < target ∧ notified = false then
      [.updatePriceTs itemId p now, .updateNotified itemId]
    else [.updatePriceTs itemId p now]
  | _ => []

/-- The item row one check attempt should leave in the store. -/
def itemAfter (item : ItemState) (now : ℕ) : FetchResult → ItemState
  | .price p =>
    if p < item.target_price.getD 0 ∧ item.notified = false then
      { item with last_price := some p, last_checked := some now, notified := true }
    else { item with last_price := some p, last_checked := some now }
  | _ => item

/-! ## Shared lemmas -/

/-- Any attempt that ends in `continue` slept the `0.7 * attempt` backoff
and had opened a fresh context. -/
lemma retry_attempt_events (site url : String) (n : ℕ) (e : AttemptEnv)
    (h : (oneAttempt site url n e).2 = .retry) :
    Ev.sleepBackoff (mkRat (7 * n) 10) ∈ (oneAttempt site url n e).1 ∧
    Ev.openCtx ∈ (oneAttempt site url n e).1 := by
  obtain ⟨pc, nav⟩ := e
  cases pc with
  | some m => simp [oneAttempt] at h
  | none =>
    cases nav with
    | pwRaise msg =>
      by_cases hm : isNetErr msg
      · simp [oneAttempt, hm] at h
      · simp [oneAttempt, hm]
    | otherRaise => simp [oneAttempt]
    | ok p1 p2 =>
      simp only [oneAttempt] at h ⊢
      repeat' (first | split at h | split)
      all_goals simp_all

/-- Every character of a sanitized filename lies in `[0-9A-Za-z-_.]`. -/
lemma sanitize_chars (s : String) :
    ∀ c ∈ (sanitize_filename s).toList, isFnameChar c = true := by
  intro c hc
  have hc' : c ∈ (s.toList.map fun a => if isFnameChar a then a else '_').take 240 := hc
  have hc2 := List.take_subset 240 _ hc'
  rcases List.mem_map.mp hc2 with ⟨a, -, rfl⟩
  by_cases h : isFnameChar a
  · simp [h]
  · rw [if_neg h]
    decide

/-- A sanitized filename has at most 240 characters. -/
lemma sanitize_len (s : String) : (sanitize_filename s).length ≤ 240 := by
  show (List.take 240 _).length ≤ 240
  simp

lemma count_bne_zero_eq_contains (l : List Char) (c : Char) :
    (l.count c != 0) = l.contains c := by
  induction l with
  | nil => rfl
  | cons a as ih =>
    by_cases h : c = a
    · simp [List.count_cons, List.contains_cons, h]
    · simp [List.count_cons, List.contains_cons, h, ih, Ne.symm h]

lemma count_beq_zero_eq_not_contains (l : List Char) (c : Char) :
    (l.count c == 0) = !(l.contains c) := by
  rw [← count_bne_zero_eq_contains]
  cases h : l.count c == 0 <;> simp_all [bne]

lemma normalize_eq_specModel (pr : Option String) :
    normalize_price_string pr = normalizeSpecModel pr := by
  match pr with
  | none => rfl
  | some raw =>
    simp only [normalize_price_string, normalizeSpecModel,
      count_bne_zero_eq_contains, count_beq_zero_eq_not_contains]

/-! ## Claims -/

/-- Claim C3: the price normalizer maps `"₹44,999"` to `"44999"`,
`"44,999.00"` to `"44999.00"`, and the empty string and `None` to `None`;
and in general it coincides with the spec's rule order: strip currency
markers and the literal "MRP", keep only digits, commas and periods, drop
commas as thousands separators when a comma but no period is present, drop
any remaining commas, and return `None` on an empty result. -/
theorem c3_normalizer :
    normalize_price_string (some "₹44,999") = some "44999" ∧
    normalize_price_string (some "44,999.00") = some "44999.00" ∧
    normalize_price_string (some "") = none ∧
    normalize_price_string none = none ∧
    ∀ pr, normalize_price_string pr = normalizeSpecModel pr :=
  ⟨by decide, by decide, by decide, rfl, normalize_eq_specModel⟩

/-- Claim C1, counterexample: in the amazon scenario (whole digit-filtered
text `"44"`, fraction `"999"`, target 50000) the check does NOT produce the
claimed normalized price 44999.00: the fetched price is 44.999, no history
record with price 44999 is written, and no alert text contains `"44999"`. -/
theorem c1_counterexample :
    (itemFetch false feC1 feC1 itemC1).2 = .price (mkRat 44999 1000) ∧
    (mkRat 44999 1000 ≠ 44999) ∧
    Effect.insertHistory "i1" (some 44999) ∉ (checkItem false feC1 feC1 7 itemC1).2.1 ∧
    (alerts (checkItem false feC1 feC1 7 itemC1).2.1).all
      (fun m => !(strContains m "44999")) = true := by
  refine ⟨by decide, by decide, by decide, by decide⟩

/-- Claim C1, amended: in the amazon scenario the extracted token is
`"{whole}.{fraction}" = "44.999"`, the normalized price is 44.999 (not
44999.00), the check writes one history record with price 44.999, updates
the item's last price/timestamp, sets notified to true, and fires exactly
one alert, whose text contains `"44.999"`. -/
theorem c1_amazon_scenario :
    extract_price "amazon" pvC1 = some "44.999" ∧
    normalize_price_string (some "44.999") = some "44.999" ∧
    checkItem false feC1 feC1 7 itemC1 =
      ([.openCtx, .openPage, .closePage, .closeCtx],
       [.updatePriceTs "i1" (mkRat 44999 1000) 7,
        .insertHistory "i1" (some (mkRat 44999 1000)),
        .slack msgC1,
        .updateNotified "i1"],
       { itemC1 with last_price := some (mkRat 44999 1000), last_checked := some 7,
                     notified := true }) ∧
    strContains msgC1 "44.999" = true := by
  refine ⟨by decide, by decide, by decide, by decide⟩

/-- Claim C8: for croma extraction, when the live page's JS-state inspection
yields a non-empty value, that value is returned as the raw token, whatever
the regex tier or the CSS-selector tier would have matched on the markup. -/
theorem c8_croma_js_precedence (pv : PageView) (v : String)
    (hjs : pv.cromaJs = some v) (hne : v ≠ "") :
    extract_price "croma" pv = some v := by
  simp [extract_price, hjs, hne, pyTruthy]

/-- Witness for C8: on a page where the JS state says `"111"` while the
regex tiers would say `"222"`/`"333"` and the selector tier `"444"`, the
extracted token is `"111"`. -/
theorem c8_witness :
    pvC8.cromaJs = some "111" ∧ pvC8.cromaRegexHtml = some "222" ∧
    pvC8.cromaEl = some (some "444", "555") ∧
    extract_price "croma" pvC8 = some "111" :=
  ⟨rfl, rfl, rfl, c8_croma_js_precedence pvC8 "111" rfl (by decide)⟩

/-- Claim C10: for any site string other than the four supported
identifiers, extraction returns `None` on every page, and the item's check
ends as an ordinary no-price failure — a null history record plus a failure
alert, with the item untouched — instead of aborting the run. -/
theorem c10_unknown_site (s : String)
    (h1 : s ≠ "flipkart") (h2 : s ≠ "amazon") (h3 : s ≠ "reliance") (h4 : s ≠ "croma") :
    (∀ pv, extract_price s pv = none) ∧
    (∀ (pa : Bool) (feP : FetchEnv) (now : ℕ) (item : ItemState) (p1 p2 p3 p4 : PageView),
      pyLower (item.site.getD "") = s →
      (checkItem pa feP ⟨⟨none, .ok p1 p2⟩, ⟨none, .ok p3 p4⟩⟩ now item).2 =
        ([.slack (noPriceMsg s item.product_url), .insertHistory item.id none], item)) := by
  have hx : ∀ pv, extract_price s pv = none := by
    intro pv
    simp [extract_price, h1, h2, h3, h4]
  refine ⟨hx, ?_⟩
  intro pa feP now item p1 p2 p3 p4 hsite
  simp [checkItem, itemFetch, get_price_with_context, oneAttempt, hsite, h4, hx, pyTruthy]

/-- Witness for C10: the site string `"bogus"` (stored as `"BOGUS"`). -/
theorem c10_witness :
    ("bogus" ≠ "flipkart" ∧ "bogus" ≠ "amazon" ∧ "bogus" ≠ "reliance" ∧
     "bogus" ≠ "croma") ∧
    extract_price "bogus" blankPage = none ∧
    (checkItem false blankFetch blankFetch 3 itemC10).2 =
      ([.slack (noPriceMsg "bogus" "http://x/y"), .insertHistory "i2" none], itemC10) := by
  refine ⟨⟨by decide, by decide, by decide, by decide⟩, ?_, ?_⟩
  · exact (c10_unknown_site "bogus" (by decide) (by decide) (by decide) (by decide)).1 blankPage
  · exact (c10_unknown_site "bogus" (by decide) (by decide) (by decide) (by decide)).2
      false blankFetch 3 itemC10 blankPage blankPage blankPage blankPage (by decide)

/-- Claim C4, counterexample: when `context.new_page()` raises, the
just-created context is never closed — the attempt trace is `[openCtx]`
with no `closeCtx`, and the exception escapes the whole call. -/
theorem c4_counterexample :
    (get_price_with_context "amazon" "u" ⟨some "new_page failed", .otherRaise⟩
        ⟨some "new_page failed", .otherRaise⟩).1 = [Ev.openCtx] ∧
    Ev.closeCtx ∉ (get_price_with_context "amazon" "u" ⟨some "new_page failed", .otherRaise⟩
        ⟨some "new_page failed", .otherRaise⟩).1 ∧
    (get_price_with_context "amazon" "u" ⟨some "new_page failed", .otherRaise⟩
        ⟨some "new_page failed", .otherRaise⟩).2 = .raisedPageCreate "new_page failed" := by
  refine ⟨by decide, by decide, by decide⟩

/-- Claim C4, amended: on every path of an attempt in which page creation
succeeds — success, expected failure (not found / normalization failed) and
unexpected failure inside the attempt body — the page and the context are
closed before the retry loop continues or the function exits; only when
page creation itself raises (context creation and page creation sit outside
the `try` block) is the freshly created context leaked. -/
theorem c4_amended (site url : String) (n : ℕ) (e : AttemptEnv)
    (h : e.pageCreateErr = none) :
    Ev.openCtx ∈ (oneAttempt site url n e).1 ∧
    Ev.closePage ∈ (oneAttempt site url n e).1 ∧
    Ev.closeCtx ∈ (oneAttempt site url n e).1 := by
  obtain ⟨pc, nav⟩ := e
  simp only at h
  subst h
  cases nav with
  | pwRaise msg => by_cases hm : isNetErr msg <;> simp [oneAttempt, hm]
  | otherRaise => simp [oneAttempt]
  | ok p1 p2 =>
    simp only [oneAttempt]
    repeat' split
    all_goals simp

/-- Witness for C4: an attempt whose body raises a generic exception still
opens and closes its session. -/
theorem c4_witness :
    (⟨none, .otherRaise⟩ : AttemptEnv).pageCreateErr = none ∧
    (Ev.openCtx ∈ (oneAttempt "amazon" "u" 1 ⟨none, .otherRaise⟩).1 ∧
     Ev.closePage ∈ (oneAttempt "amazon" "u" 1 ⟨none, .otherRaise⟩).1 ∧
     Ev.closeCtx ∈ (oneAttempt "amazon" "u" 1 ⟨none, .otherRaise⟩).1) :=
  ⟨rfl, c4_amended "amazon" "u" 1 ⟨none, .otherRaise⟩ rfl⟩

/-- Claim C5: a `PlaywrightError` carrying a recognized network-error
substring during a proxied croma attempt is re-raised at once — the proxied
call performs a single attempt (no backoff, independent of the second
attempt's environment) — and the controller immediately re-attempts the
same item on the direct browser with a fresh `get_price_with_context` call
owning its own full 2-attempt budget. -/
theorem c5_proxy_fallback (msg : String) (e2 : AttemptEnv) (feD : FetchEnv)
    (item : ItemState) (hsite : item.site = some "croma") (hnet : isNetErr msg = true) :
    get_price_with_context "croma" item.product_url ⟨none, .pwRaise msg⟩ e2 =
      ([.openCtx, .openPage, .closePage, .closeCtx], .raisedNet msg) ∧
    itemFetch true ⟨⟨none, .pwRaise msg⟩, e2⟩ feD item =
      ([.openCtx, .openPage, .closePage, .closeCtx] ++
         (get_price_with_context "croma" item.product_url feD.a1 feD.a2).1,
       (get_price_with_context "croma" item.product_url feD.a1 feD.a2).2) := by
  have h1 : get_price_with_context "croma" item.product_url ⟨none, .pwRaise msg⟩ e2 =
      ([.openCtx, .openPage, .closePage, .closeCtx], .raisedNet msg) := by
    simp [get_price_with_context, oneAttempt, hnet]
  refine ⟨h1, ?_⟩
  have hl : pyLower (item.site.getD "") = "croma" := by
    rw [hsite]
    decide
  simp [itemFetch, hl, h1]

/-- Witness for C5: a tunnel-connection failure on the proxied croma path. -/
theorem c5_witness :
    isNetErr "net::ERR_TUNNEL_CONNECTION_FAILED at x" = true ∧
    itemC5.site = some "croma" ∧
    (get_price_with_context "croma" itemC5.product_url
        ⟨none, .pwRaise "net::ERR_TUNNEL_CONNECTION_FAILED at x"⟩ ⟨none, .otherRaise⟩ =
      ([.openCtx, .openPage, .closePage, .closeCtx],
       .raisedNet "net::ERR_TUNNEL_CONNECTION_FAILED at x") ∧
     itemFetch true ⟨⟨none, .pwRaise "net::ERR_TUNNEL_CONNECTION_FAILED at x"⟩,
         ⟨none, .otherRaise⟩⟩ blankFetch itemC5 =
      ([.openCtx, .openPage, .closePage, .closeCtx] ++
         (get_price_with_context "croma" itemC5.product_url blankFetch.a1 blankFetch.a2).1,
       (get_price_with_context "croma" itemC5.product_url blankFetch.a1 blankFetch.a2).2)) :=
  ⟨by decide, rfl,
   c5_proxy_fallback "net::ERR_TUNNEL_CONNECTION_FAILED at x" ⟨none, .otherRaise⟩
     blankFetch itemC5 rfl (by decide)⟩

/-- Claim C6: when both attempts end in a generic failure (not found,
normalization failed, unexpected exception), each retried with a fresh
session and a backoff of `0.7 * attempt` seconds, the call returns the
null "no price found" result instead of raising. -/
theorem c6_generic_retry (site url : String) (e1 e2 : AttemptEnv)
    (h1 : (oneAttempt site url 1 e1).2 = .retry)
    (h2 : (oneAttempt site url 2 e2).2 = .retry) :
    (get_price_with_context site url e1 e2).2 = .noPrice ∧
    Ev.sleepBackoff (mkRat 7 10) ∈ (oneAttempt site url 1 e1).1 ∧
    Ev.sleepBackoff (mkRat 14 10) ∈ (oneAttempt site url 2 e2).1 ∧
    Ev.openCtx ∈ (oneAttempt site url 1 e1).1 ∧
    Ev.openCtx ∈ (oneAttempt site url 2 e2).1 := by
  have r1 := retry_attempt_events site url 1 e1 h1
  have r2 := retry_attempt_events site url 2 e2 h2
  refine ⟨?_, ?_, ?_, r1.2, r2.2⟩
  · rcases ho1 : oneAttempt site url 1 e1 with ⟨evs1, s1⟩
    rcases ho2 : oneAttempt site url 2 e2 with ⟨evs2, s2⟩
    rw [ho1] at h1
    rw [ho2] at h2
    simp only at h1 h2
    subst h1
    subst h2
    simp [get_price_with_context, ho1, ho2]
  · have := r1.1
    norm_num at this ⊢
    exact this
  · have := r2.1
    norm_num at this ⊢
    exact this

/-- Witness for C6: two attempts that both raise a generic exception. -/
theorem c6_witness :
    ((oneAttempt "flipkart" "u" 1 ⟨none, .otherRaise⟩).2 = .retry) ∧
    ((oneAttempt "flipkart" "u" 2 ⟨none, .otherRaise⟩).2 = .retry) ∧
    ((get_price_with_context "flipkart" "u" ⟨none, .otherRaise⟩ ⟨none, .otherRaise⟩).2 =
        .noPrice ∧
     Ev.sleepBackoff (mkRat 7 10) ∈ (oneAttempt "flipkart" "u" 1 ⟨none, .otherRaise⟩).1 ∧
     Ev.sleepBackoff (mkRat 14 10) ∈ (oneAttempt "flipkart" "u" 2 ⟨none, .otherRaise⟩).1 ∧
     Ev.openCtx ∈ (oneAttempt "flipkart" "u" 1 ⟨none, .otherRaise⟩).1 ∧
     Ev.openCtx ∈ (oneAttempt "flipkart" "u" 2 ⟨none, .otherRaise⟩).1) :=
  ⟨rfl, rfl, c6_generic_retry "flipkart" "u" ⟨none, .otherRaise⟩ ⟨none, .otherRaise⟩ rfl rfl⟩

/-- Claim C7: the notified flag becomes true exactly when it already was
true or a freshly fetched price is strictly below the target while the item
was not yet notified; in particular the check-run logic never resets it to
false. -/
theorem c7_notified_monotone (pa : Bool) (feP feD : FetchEnv) (now : ℕ) (item : ItemState) :
    (checkItem pa feP feD now item).2.2.notified = true ↔
      (item.notified = true ∨
        ∃ p, (itemFetch pa feP feD item).2 = .price p ∧ p < item.target_price.getD 0) := by
  rcases hf : (itemFetch pa feP feD item).2 with p | _ | m | m
  · by_cases hge : item.target_price.getD 0 ≤ p
    · simp [checkItem, hf, hge, not_lt.mpr hge]
    · by_cases hn : item.notified
      · simp [checkItem, hf, hge, hn]
      · simp [checkItem, hf, hge, hn, not_le.mp hge]
  · simp [checkItem, hf]
  · simp [checkItem, hf]
  · simp [checkItem, hf]

/-- Claim C2, counterexample: in the C1 success scenario (price below
target, item not yet notified) the check performs two `tracked_items`
mutations — the price+timestamp update and the notified-flag update — so
"at most one TrackedItem mutation per successful attempt" is false. -/
theorem c2_counterexample :
    ((checkItem false feC1 feC1 7 itemC1).2.1.filter isItemMutation).length = 2 ∧
    ¬(((checkItem false feC1 feC1 7 itemC1).2.1.filter isItemMutation).length ≤ 1) := by
  refine ⟨by decide, by decide⟩

/-- Claim C2, amended: for every item whose fetch returns (rather than
raising to the per-item handler), exactly one price-history record is
appended, with a null price exactly when the attempt failed; on a failed
attempt the item row is untouched; on a successful attempt the
price+timestamp mutation always occurs and a second, notified-flag
mutation occurs exactly when the price is strictly below target and the
item was not already notified.  When an exception escapes to the per-item
handler, no history record and no mutation is produced. -/
theorem c2_history_and_mutations (pa : Bool) (feP feD : FetchEnv) (now : ℕ)
    (item : ItemState) :
    (checkItem pa feP feD now item).2.1.filter isHistory =
      historyOf item.id (itemFetch pa feP feD item).2 ∧
    (checkItem pa feP feD now item).2.1.filter isItemMutation =
      mutationsOf item.id now (item.target_price.getD 0) item.notified
        (itemFetch pa feP feD item).2 ∧
    (checkItem pa feP feD now item).2.2 = itemAfter item now (itemFetch pa feP feD item).2 := by
  rcases hf : (itemFetch pa feP feD item).2 with p | _ | m | m
  · by_cases hge : item.target_price.getD 0 ≤ p
    · simp [checkItem, hf, hge, historyOf, mutationsOf, itemAfter,
            isHistory, isItemMutation, not_lt.mpr hge]
    · by_cases hn : item.notified
      · simp [checkItem, hf, hge, hn, historyOf, mutationsOf, itemAfter,
              isHistory, isItemMutation, not_le.mp hge]
      · simp [checkItem, hf, hge, hn, historyOf, mutationsOf, itemAfter,
              isHistory, isItemMutation, not_le.mp hge]
  · simp [checkItem, hf, historyOf, mutationsOf, itemAfter, isHistory, isItemMutation]
  · simp [checkItem, hf, historyOf, mutationsOf, itemAfter, isHistory, isItemMutation]
  · simp [checkItem, hf, historyOf, mutationsOf, itemAfter, isHistory, isItemMutation]

/-- Claim C9, counterexample: the artifact name is NOT injective in the
URL — the distinct URLs `"a/b"` and `"a_b"` map to the same sanitized
filename, so a second failing attempt for the other URL silently
overwrites the first artifact. -/
theorem c9_counterexample :
    debugFilename "croma" "a/b" = debugFilename "croma" "a_b" ∧ ("a/b" : String) ≠ "a_b" := by
  refine ⟨by decide, by decide⟩

/-- Claim C9, amended: every attempt whose two extraction reads both fail
writes exactly one diagnostic artifact, named from the sanitized site and
URL, with every character in the restricted class `[0-9A-Za-z-_.]` and the
length capped (240 for the sanitized stem plus `".html"`); but distinct
URLs may collide on the same artifact name (for instance `/` and `_`
sanitize alike), in which case the later artifact silently overwrites the
earlier one. -/
theorem c9_one_artifact (site url : String) (n : ℕ) (p1 p2 : PageView)
    (h1 : pyTruthy (extract_price site p1) = false)
    (h2 : pyTruthy (extract_price site p2) = false) :
    (oneAttempt site url n ⟨none, .ok p1 p2⟩).1.filter isWriteDebug =
      [.writeDebug (debugFilename site url)] ∧
    (debugFilename site url).length ≤ 245 ∧
    (∀ c ∈ (debugFilename site url).toList, isFnameChar c = true) := by
  refine ⟨?_, ?_, ?_⟩
  · simp [oneAttempt, h1, h2, isWriteDebug]
  · have := sanitize_len (site ++ "_" ++ pyReplace (pyReplace url "://" "_") "/" "_")
    calc (debugFilename site url).length
        = (sanitize_filename (site ++ "_" ++ pyReplace (pyReplace url "://" "_") "/" "_")).length
            + (".html" : String).length := String.length_append _ _
      _ ≤ 240 + 5 := by
          refine Nat.add_le_add this ?_
          decide
  · intro c hc
    have hsplit : c ∈
        (sanitize_filename (site ++ "_" ++ pyReplace (pyReplace url "://" "_") "/" "_")).toList
        ∨ c ∈ (".html" : String).toList := by
      have hd : (debugFilename site url).toList =
          (sanitize_filename (site ++ "_" ++ pyReplace (pyReplace url "://" "_") "/" "_")).toList
            ++ (".html" : String).toList := by
        simp [debugFilename, String.toList]
      rw [hd] at hc
      exact List.mem_append.mp hc
    rcases hsplit with h | h
    · exact sanitize_chars _ c h
    · fin_cases h <;> decide

/-- Witness for C9: a croma attempt on blank pages writes exactly one
artifact named `croma_http_x_y.html`. -/
theorem c9_witness :
    pyTruthy (extract_price "croma" blankPage) = false ∧
    ((oneAttempt "croma" "http://x/y" 1 ⟨none, .ok blankPage blankPage⟩).1.filter isWriteDebug =
      [.writeDebug (debugFilename "croma" "http://x/y")] ∧
     (debugFilename "croma" "http://x/y").length ≤ 245 ∧
     (∀ c ∈ (debugFilename "croma" "http://x/y").toList, isFnameChar c = true)) :=
  ⟨by decide, c9_one_artifact "croma" "http://x/y" 1 blankPage blankPage (by decide) (by decide)⟩

end DropNotifier
